import Mathlib

/-!
Shallow embedding of the value-saving bot's core logic.

The repository has two near-duplicate revisions of the same handlers:
the refactored one split across `handlers.py` / `services.py` /
`database.py` (embedded at top level here), and an older monolithic
`main.py` (its `save_value` / `validate_value_cached` are embedded in
namespace `Main`).

External collaborators (the remote assistant API, speech-to-text, the
analytics sink) are modelled as inputs: a `RemoteRun` value stands for
the outcome of `runs.create_and_poll`, a `Bool` flag stands for whether
the database commit succeeds, and a `Bool` flag stands for the remote
validator's verdict.  Python exceptions are modelled explicitly as
`exn` constructors; the Python `None` returned by a function body with
no `return` statement is modelled by `PyRet.pyNone`.
-/

/-- The Python value found under the "value" key of a parsed tool-call
argument dict: absent/null, a string, or some non-string JSON value. -/
inductive PyVal where
  | vNone
  | vStr (s : String)
  | vOther
deriving DecidableEq

/-- Outcome of `json.loads` on a tool call's `arguments` string:
`malformed` models a `json.JSONDecodeError`, `nonDict` models a payload
that parses but is not a dict (so `.get` raises, caught by the generic
`except`), `ok v` models a dict whose "value" entry is `v`. -/
inductive ArgParse where
  | malformed
  | nonDict
  | ok (value : PyVal)
deriving DecidableEq

/-- One entry of `run.required_action.submit_tool_outputs.tool_calls`. -/
structure ToolCall where
  id : String
  name : String
  arguments : ArgParse
deriving DecidableEq

instance : Inhabited ToolCall := ⟨⟨"", "", ArgParse.malformed⟩⟩

/-- Status of a remote run after `create_and_poll`.  `failed` stands for
any terminal status other than `completed` and `requires_action` (the
code raises on all of them alike). -/
inductive RunStatus where
  | completed
  | requires_action
  | failed
deriving DecidableEq

/-- A remote run as observed by the handlers: its id, terminal status,
and (for a requires-action run) its tool-call list. -/
structure RemoteRun where
  id : String
  status : RunStatus
  tool_calls : List ToolCall
deriving DecidableEq

/-- One persisted row of the `user_values` table (models.UserValue). -/
structure UserValue where
  user_id : Int
  value : String
deriving DecidableEq

/-- The database contents: the list of persisted `UserValue` rows. -/
abbrev DB := List UserValue

/-- A Python return value that is either `None` or a
`(success, message)` pair; used to model the value `save_value_to_db`
returns to its caller. -/
inductive PyRet where
  | pyNone
  | pyPair (success : Bool) (message : String)
deriving DecidableEq

/-- Outcome of a call to the persistence layer: normal return with the
new database contents and the returned Python value, or a raised
exception with the database contents after rollback. -/
inductive DbOutcome where
  | ret (db : DB) (r : PyRet)
  | exn (db : DB)
deriving DecidableEq

/-- database.py `save_value_to_db`: adds the row and commits; on a
commit failure it rolls back and re-raises.  The function body has no
`return` statement, so the success path returns Python `None`
(`PyRet.pyNone`).  `commitOk` models whether the commit succeeds. -/
def save_value_to_db (commitOk : Bool) (db : DB) (user_id : Int) (value : String) : DbOutcome :=
  if commitOk then DbOutcome.ret (db ++ [⟨user_id, value⟩]) PyRet.pyNone
  else DbOutcome.exn db

/-- database.py `get_user_values`: the values stored for one user. -/
def get_user_values (db : DB) (user_id : Int) : List String :=
  (db.filter fun r => r.user_id = user_id).map fun r => r.value

/-- Clarification sent when the extracted value is missing, empty,
whitespace-only, or not a string. -/
def clarifyMsg : String := "Ценность не определена. Пожалуйста, уточните."

/-- Generic processing-error message used by services.py and by the
handlers' exception paths. -/
def processErrMsg : String := "Ошибка обработки. Попробуйте снова."

/-- Error message of voice_handler's exception path. -/
def voiceErrMsg : String := "Ошибка обработки запроса"

/-- Python `str.strip()` with no arguments: removes leading and
trailing whitespace.  Modelled over the character list so that it is
kernel-evaluable. -/
def pyStrip (s : String) : String :=
  String.mk (((s.toList.dropWhile Char.isWhitespace).reverse.dropWhile Char.isWhitespace).reverse)

/-- services.py `OpenAIService.handle_tool_outputs`: walks the run's
tool-call list; on the first call named "save_value" it parses the
arguments and returns either `(value, None)` for a non-empty trimmed
string value, or `(None, message)` for a parse error or an invalid
value.  If no call is named "save_value" it returns `(None, None)`.
The Python test `not value or not isinstance(value, str) or not
value.strip()` holds exactly for a missing/null value, a non-string
value, or a string that trims to empty. -/
def handle_tool_outputs : List ToolCall → Option String × Option String
  | [] => (none, none)
  | tc :: rest =>
    if tc.name = "save_value" then
      match tc.arguments with
      | ArgParse.malformed => (none, some processErrMsg)
      | ArgParse.nonDict => (none, some processErrMsg)
      | ArgParse.ok PyVal.vNone => (none, some clarifyMsg)
      | ArgParse.ok PyVal.vOther => (none, some clarifyMsg)
      | ArgParse.ok (PyVal.vStr s) =>
          if pyStrip s = "" then (none, some clarifyMsg) else (some s, none)
    else handle_tool_outputs rest

/-- A tool output submitted back to the remote run via
`submit_tool_outputs_and_poll` (services.py `submit_tool_output`): the
tool-call id it is attached to and the JSON-encoded success/message. -/
structure ToolOutput where
  tool_call_id : String
  success : Bool
  output_message : String
deriving DecidableEq

/-- Outcome of `process_tool_call`: a normal `(response, success)`
return or a raised exception, together with the database contents after
the call and the list of tool outputs submitted to the remote run. -/
inductive CallOutcome where
  | ret (response : String) (success : Bool) (db : DB) (submitted : List ToolOutput)
  | exn (db : DB) (submitted : List ToolOutput)
deriving DecidableEq

/-- The tool outputs an outcome submitted to the remote run. -/
def CallOutcome.submissions : CallOutcome → List ToolOutput
  | CallOutcome.ret _ _ _ s => s
  | CallOutcome.exn _ s => s

/-- The database contents after an outcome. -/
def CallOutcome.dbAfter : CallOutcome → DB
  | CallOutcome.ret _ _ d _ => d
  | CallOutcome.exn d _ => d

/-- services.py `OpenAIService.process_tool_call`: extracts a value via
`handle_tool_outputs`; on an error it returns `(error, False)` without
touching the database or submitting any tool output; on a value it
calls `save_value_to_db` and unpacks the result into
`success, response`.  Because `save_value_to_db` returns Python `None`,
that unpacking raises a `TypeError` after the commit, so the
`submit_tool_output` call on the next line is never reached; the
`pyPair` branch below transcribes what the caller's text does with a
pair, and the `tool_calls[0].id` subscription it uses. -/
def process_tool_call (commitOk : Bool) (run : RemoteRun) (db : DB) (user_id : Int) : CallOutcome :=
  match handle_tool_outputs run.tool_calls with
  | (_, some error) => CallOutcome.ret error false db []
  | (some value, none) =>
    if value = "" then CallOutcome.ret processErrMsg false db []
    else
      match save_value_to_db commitOk db user_id value with
      | DbOutcome.ret db2 PyRet.pyNone => CallOutcome.exn db2 []
      | DbOutcome.ret db2 (PyRet.pyPair success response) =>
          CallOutcome.ret response success db2
            [⟨run.tool_calls.headI.id, success, response⟩]
      | DbOutcome.exn db2 => CallOutcome.exn db2 []
  | (none, none) => CallOutcome.ret processErrMsg false db []

/-- Per-user conversation state: aiogram's FSM state plus the
`thread_id` stored in the FSM data.  `state.clear()` maps to `Idle`. -/
inductive SessionState where
  | Idle
  | AwaitingValue (thread_id : String)
deriving DecidableEq

/-- One message of the thread's message list, as inspected by the
completed branch: role, whether `content[0].type == "text"`, text. -/
structure ThreadMsg where
  role : String
  isText : Bool
  text : String
deriving DecidableEq

/-- What a handler invocation produced: the replies sent to the user,
the database contents afterwards, the session state afterwards, and the
tool outputs submitted to the remote run. -/
structure HandlerResult where
  replies : List String
  db : DB
  state : SessionState
  submitted : List ToolOutput
deriving DecidableEq

/-- handlers.py `process_value` (the ValuesState.waiting_for_value
handler), for a text submission, from the point where the remote run
has been created and polled (`run` is its outcome; `msgs` is the thread
message list fetched in the completed branch).  A requires-action run
goes through `process_tool_call`; on a normal return the response is
answered and the state is cleared only when `success` is true; on an
exception the outer `except` block answers the generic error and
clears the state.  Any non-completed other status raises, landing in
the same `except` block.  A completed run answers every assistant text
message and then the fixed re-prompt, leaving state untouched. -/
def process_value (run : RemoteRun) (commitOk : Bool) (msgs : List ThreadMsg)
    (db : DB) (user_id : Int) (st : SessionState) : HandlerResult :=
  match run.status with
  | RunStatus.requires_action =>
    match process_tool_call commitOk run db user_id with
    | CallOutcome.ret response success db2 submitted =>
        ⟨[response], db2, if success then SessionState.Idle else st, submitted⟩
    | CallOutcome.exn db2 submitted =>
        ⟨[processErrMsg], db2, SessionState.Idle, submitted⟩
  | RunStatus.completed =>
      ⟨((msgs.filter fun m => m.role = "assistant" && m.isText).map fun m => m.text)
          ++ ["Пожалуйста, уточните вашу ценность."], db, st, []⟩
  | RunStatus.failed => ⟨[processErrMsg], db, SessionState.Idle, []⟩

/-- handlers.py `voice_handler` (general-chat voice messages), from the
point where the transcript is known and the fresh thread's run has been
polled.  A requires-action run goes through `process_tool_call` exactly
as in the values flow; the handler never touches the FSM state (it has
no state parameter), so `st` passes through unchanged; exceptions land
in its own `except` block answering `voiceErrMsg`. -/
def voice_handler (run : RemoteRun) (commitOk : Bool) (msgs : List ThreadMsg)
    (db : DB) (user_id : Int) (transcript : String) (st : SessionState) : HandlerResult :=
  match run.status with
  | RunStatus.requires_action =>
    match process_tool_call commitOk run db user_id with
    | CallOutcome.ret response _ db2 submitted =>
        ⟨["🎤 Ваш вопрос: " ++ transcript, response], db2, st, submitted⟩
    | CallOutcome.exn db2 submitted =>
        ⟨["🎤 Ваш вопрос: " ++ transcript, voiceErrMsg], db2, st, submitted⟩
  | RunStatus.completed =>
    match (msgs.filter fun m => m.role = "assistant").head? with
    | some m =>
        ⟨["🎤 Ваш вопрос: " ++ transcript, "🤖 Ответ: " ++ m.text], db, st, []⟩
    | none =>
        ⟨["🎤 Ваш вопрос: " ++ transcript, voiceErrMsg], db, st, []⟩
  | RunStatus.failed =>
      ⟨["🎤 Ваш вопрос: " ++ transcript, voiceErrMsg], db, st, []⟩

/-- handlers.py's bot-functions blurb, answered by the "о боте" branch
and appended to the /start greeting. -/
def BOT_FUNCTIONS : String :=
  "\n🤖 **О моих возможностях**:\n\n1. **Голосовой помощник**: Отправь голосовое сообщение, и я преобразую его в текст, отвечу на твой вопрос и озвучу ответ! Использую передовые технологии OpenAI для распознавания речи и генерации голоса.\n2. **Определение ценностей**: Используй команду `/values`, чтобы обсудить, что для тебя важно в жизни (например, семья, свобода, успех). Я сохраню твои ценности в базе данных после проверки их корректности.\n3. **Анализ настроения**: Отправь фото своего лица с командой `/mood`, и я определю твоё настроение (радость, грусть, спокойствие и т.д.) с помощью анализа изображения.\n4. **Мои ценности**: Нажми кнопку \"Мои ценности\", чтобы посмотреть список сохранённых ценностей.\n\nПопробуй все функции! Если нужна помощь, напиши \"Помощь\" или используй команду `/start`.\n"

/-- handlers.py `text_handler` (general-chat text messages): answers a
canned reply depending on the lowered text; the "мои ценности" branch
reads the database but no branch ever writes it, and the FSM state is
never touched. -/
def text_handler (text : String) (db : DB) (user_id : Int) (st : SessionState) : HandlerResult :=
  let lower := text.toLower
  if lower = "помощь" then
    ⟨["Отправь голосовое сообщение, используй /values для ценностей или /mood для настроения."], db, st, []⟩
  else if lower = "о боте" then
    ⟨[BOT_FUNCTIONS], db, st, []⟩
  else if lower = "мои ценности" then
    let values := get_user_values db user_id
    if values ≠ [] then
      ⟨["Ваши сохранённые ценности: " ++ String.intercalate ", " values], db, st, []⟩
    else
      ⟨["У вас пока нет сохранённых ценностей. Используйте /values, чтобы определить их."], db, st, []⟩
  else if lower = "моё настроение" then
    ⟨["Отправь фото своего лица, и я определю твоё настроение!"], db, st, []⟩
  else
    ⟨["Используй голосовые сообщения, /values или /mood."], db, st, []⟩

/-- handlers.py `start_handler`: sends the greeting and keyboard.  It
takes no FSM context and never calls `state.clear()`, so the session
state and the stored thread handle pass through unchanged (the main.py
revision's start_handler likewise never touches state). -/
def start_handler (db : DB) (st : SessionState) : HandlerResult :=
  ⟨["Привет! Я твой умный голосовой ассистент. 😊\n\n" ++ BOT_FUNCTIONS], db, st, []⟩

/-- handlers.py `values_handler`: enters the waiting-for-value state
and stores a freshly created thread handle. -/
def values_handler (new_thread : String) (db : DB) : HandlerResult :=
  ⟨["Что для тебя наиболее важно в жизни? Назови одну ценность или опиши, что ты ценишь."], db,
    SessionState.AwaitingValue new_thread, []⟩

namespace Main

/-- main.py `validate_value_cached`: returns false for an
empty/whitespace-only value, otherwise the remote validator's verdict
(`llmApproves` models the LLM call; its error path also yields false). -/
def validate_value_cached (llmApproves : Bool) (value : String) : Bool :=
  if pyStrip value = "" then false else llmApproves

/-- main.py `save_value`: validates via the remote validator, then
inserts and commits; it returns a `(success, message)` pair on every
path, rolling back and returning the error pair when the commit
raises. -/
def save_value (llmApproves commitOk : Bool) (db : DB) (user_id : Int) (value : String) :
    DB × (Bool × String) :=
  if validate_value_cached llmApproves value = false then
    (db, (false, "Ценность некорректна. Пожалуйста, уточните, что вы имеете в виду."))
  else if commitOk then
    (db ++ [⟨user_id, value⟩], (true, "Ценность успешно сохранена!"))
  else
    (db, (false, "Ошибка при сохранении ценности."))

end Main

/-- Tool calls whose name is not "save_value" are skipped by the
extraction loop. -/
theorem handle_tool_outputs_skip (pre rest : List ToolCall)
    (h : ∀ tc ∈ pre, tc.name ≠ "save_value") :
    handle_tool_outputs (pre ++ rest) = handle_tool_outputs rest := by
  induction pre with
  | nil => rfl
  | cons tc pre ih =>
    have h1 : tc.name ≠ "save_value" := h tc (List.mem_cons_self tc pre)
    have h2 : ∀ x ∈ pre, x.name ≠ "save_value" := fun x hx => h x (List.mem_cons_of_mem tc hx)
    simp only [List.cons_append, handle_tool_outputs, if_neg h1]
    exact ih h2

/-- A leading save_value call with a non-empty trimmed string value is
extracted as that value with no error. -/
theorem handle_tool_outputs_valid (cid v : String) (rest : List ToolCall)
    (hv : pyStrip v ≠ "") :
    handle_tool_outputs (⟨cid, "save_value", ArgParse.ok (PyVal.vStr v)⟩ :: rest)
      = (some v, none) := by
  simp [handle_tool_outputs, hv]

/-- A non-empty trimmed string is itself non-empty. -/
theorem ne_empty_of_strip_ne_empty (v : String) (hv : pyStrip v ≠ "") : v ≠ "" := by
  intro he
  apply hv
  rw [he]
  rfl

/-- When extraction yields a value and the commit succeeds, the
services-revision `process_tool_call` commits the row and then raises
(the `success, response` unpacking of the `None` returned by
`save_value_to_db` is a TypeError), submitting nothing. -/
theorem process_tool_call_valid_commit (run : RemoteRun) (db : DB) (uid : Int) (v : String)
    (h1 : handle_tool_outputs run.tool_calls = (some v, none)) (hne : v ≠ "") :
    process_tool_call true run db uid = CallOutcome.exn (db ++ [⟨uid, v⟩]) [] := by
  simp [process_tool_call, h1, hne, save_value_to_db]

/-- C1: for every non-empty, whitespace-trimmed string V delivered as
the save_value tool call's value argument while the session is in
AwaitingValue, the handler persists exactly one UserValue record
containing V and the session transitions to Idle (the state is
cleared; in this revision the clearing happens in the handler's
exception branch, after the row has been committed). -/
theorem C1_valid_value_persists_once_and_clears_state
    (pre post : List ToolCall) (cid rid tid v : String) (msgs : List ThreadMsg)
    (db : DB) (uid : Int)
    (hpre : ∀ tc ∈ pre, tc.name ≠ "save_value") (hv : pyStrip v ≠ "") :
    (process_value ⟨rid, RunStatus.requires_action,
        pre ++ ⟨cid, "save_value", ArgParse.ok (PyVal.vStr v)⟩ :: post⟩
        true msgs db uid (SessionState.AwaitingValue tid)).db = db ++ [⟨uid, v⟩] ∧
    (process_value ⟨rid, RunStatus.requires_action,
        pre ++ ⟨cid, "save_value", ArgParse.ok (PyVal.vStr v)⟩ :: post⟩
        true msgs db uid (SessionState.AwaitingValue tid)).state = SessionState.Idle := by
  have hne : v ≠ "" := ne_empty_of_strip_ne_empty v hv
  have h1 : handle_tool_outputs
      (pre ++ ⟨cid, "save_value", ArgParse.ok (PyVal.vStr v)⟩ :: post) = (some v, none) := by
    rw [handle_tool_outputs_skip pre _ hpre]
    exact handle_tool_outputs_valid cid v post hv
  have h2 : process_tool_call true
      (⟨rid, RunStatus.requires_action,
        pre ++ ⟨cid, "save_value", ArgParse.ok (PyVal.vStr v)⟩ :: post⟩ : RemoteRun)
      db uid = CallOutcome.exn (db ++ [⟨uid, v⟩]) [] :=
    process_tool_call_valid_commit _ db uid v h1 hne
  simp [process_value, h2]

/-- Witness for C1: the concrete run run_1 whose second tool call is
save_value with value "семья", submitted from AwaitingValue over an
empty database, leaves exactly the one row (1, "семья") and the Idle
state. -/
theorem C1_valid_value_witness :
    (∀ tc ∈ ([⟨"call_0", "file_search", ArgParse.ok PyVal.vNone⟩] : List ToolCall),
        tc.name ≠ "save_value") ∧
    pyStrip "семья" ≠ "" ∧
    ((process_value ⟨"run_1", RunStatus.requires_action,
        [⟨"call_0", "file_search", ArgParse.ok PyVal.vNone⟩] ++
          ⟨"call_1", "save_value", ArgParse.ok (PyVal.vStr "семья")⟩ :: []⟩
        true [] [] 1 (SessionState.AwaitingValue "t1")).db = [] ++ [⟨1, "семья"⟩] ∧
     (process_value ⟨"run_1", RunStatus.requires_action,
        [⟨"call_0", "file_search", ArgParse.ok PyVal.vNone⟩] ++
          ⟨"call_1", "save_value", ArgParse.ok (PyVal.vStr "семья")⟩ :: []⟩
        true [] [] 1 (SessionState.AwaitingValue "t1")).state = SessionState.Idle) := by
  refine ⟨by decide, by decide, ?_⟩
  exact C1_valid_value_persists_once_and_clears_state
    [⟨"call_0", "file_search", ArgParse.ok PyVal.vNone⟩] [] "call_1" "run_1" "t1" "семья"
    [] [] 1 (by decide) (by decide)

/-- A leading save_value call whose value is missing or a string that
strips to empty yields the clarification error. -/
theorem handle_tool_outputs_invalid (cid : String) (arg : PyVal) (rest : List ToolCall)
    (harg : arg = PyVal.vNone ∨ ∃ s, arg = PyVal.vStr s ∧ pyStrip s = "") :
    handle_tool_outputs (⟨cid, "save_value", ArgParse.ok arg⟩ :: rest)
      = (none, some clarifyMsg) := by
  rcases harg with h | ⟨s, hs, ht⟩
  · subst h
    simp [handle_tool_outputs]
  · subst hs
    simp [handle_tool_outputs, ht]

/-- C2: for every save_value tool call whose value argument is
missing, empty, or whitespace-only, received while the session is in
AwaitingValue, zero UserValue records are persisted, the state remains
AwaitingValue, and the user is answered the clarification prompt. -/
theorem C2_invalid_value_zero_records_state_stays
    (pre post : List ToolCall) (cid rid tid : String) (arg : PyVal) (msgs : List ThreadMsg)
    (commitOk : Bool) (db : DB) (uid : Int)
    (hpre : ∀ tc ∈ pre, tc.name ≠ "save_value")
    (harg : arg = PyVal.vNone ∨ ∃ s, arg = PyVal.vStr s ∧ pyStrip s = "") :
    process_value ⟨rid, RunStatus.requires_action,
        pre ++ ⟨cid, "save_value", ArgParse.ok arg⟩ :: post⟩
        commitOk msgs db uid (SessionState.AwaitingValue tid)
      = ⟨[clarifyMsg], db, SessionState.AwaitingValue tid, []⟩ := by
  have h1 : handle_tool_outputs (pre ++ ⟨cid, "save_value", ArgParse.ok arg⟩ :: post)
      = (none, some clarifyMsg) := by
    rw [handle_tool_outputs_skip pre _ hpre]
    exact handle_tool_outputs_invalid cid arg post harg
  have h2 : process_tool_call commitOk
      (⟨rid, RunStatus.requires_action,
        pre ++ ⟨cid, "save_value", ArgParse.ok arg⟩ :: post⟩ : RemoteRun) db uid
      = CallOutcome.ret clarifyMsg false db [] := by
    simp [process_tool_call, h1]
  simp [process_value, h2]

/-- Witness for C2: a whitespace-only value " " submitted from
AwaitingValue over a one-row database leaves the database and the state
unchanged and re-prompts the user. -/
theorem C2_invalid_value_witness :
    (∀ tc ∈ ([] : List ToolCall), tc.name ≠ "save_value") ∧
    ((PyVal.vStr " " = PyVal.vNone) ∨ ∃ s, PyVal.vStr " " = PyVal.vStr s ∧ pyStrip s = "") ∧
    process_value ⟨"run_2", RunStatus.requires_action,
        [] ++ ⟨"call_2", "save_value", ArgParse.ok (PyVal.vStr " ")⟩ :: []⟩
        true [] [⟨2, "семья"⟩] 2 (SessionState.AwaitingValue "t2")
      = ⟨[clarifyMsg], [⟨2, "семья"⟩], SessionState.AwaitingValue "t2", []⟩ := by
  refine ⟨by decide, Or.inr ⟨" ", rfl, by decide⟩, ?_⟩
  exact C2_invalid_value_zero_records_state_stays [] [] "call_2" "run_2" "t2"
    (PyVal.vStr " ") [] true [⟨2, "семья"⟩] 2 (by decide)
    (Or.inr ⟨" ", rfl, by decide⟩)

/-- C3 counterexample: for the concrete requires-action run run_3 whose
save_value argument is the whitespace-only value " ", the run
resolution loop persists nothing and returns the clarification with a
failure flag, but it submits no tool output at all — contradicting the
claim that the failure is reported back to the remote run as the
tool's output. -/
theorem C3_counterexample_no_failure_report_submitted :
    (process_tool_call true ⟨"run_3", RunStatus.requires_action,
        [⟨"call_3", "save_value", ArgParse.ok (PyVal.vStr " ")⟩]⟩ [] 7).submissions = [] ∧
    process_tool_call true ⟨"run_3", RunStatus.requires_action,
        [⟨"call_3", "save_value", ArgParse.ok (PyVal.vStr " ")⟩]⟩ [] 7
      = CallOutcome.ret clarifyMsg false [] [] := by
  decide

/-- C3 (amended): for every requires-action run whose extracted value
is invalid (missing, empty, or whitespace-only), the run resolution
loop does not call the persistence collaborator (the database is
unchanged), returns the user-facing clarification with a failure flag,
and submits no tool output back to the remote run. -/
theorem C3_amended_invalid_value_clarifies_without_submission
    (pre post : List ToolCall) (cid rid : String) (arg : PyVal)
    (commitOk : Bool) (db : DB) (uid : Int)
    (hpre : ∀ tc ∈ pre, tc.name ≠ "save_value")
    (harg : arg = PyVal.vNone ∨ ∃ s, arg = PyVal.vStr s ∧ pyStrip s = "") :
    process_tool_call commitOk ⟨rid, RunStatus.requires_action,
        pre ++ ⟨cid, "save_value", ArgParse.ok arg⟩ :: post⟩ db uid
      = CallOutcome.ret clarifyMsg false db [] := by
  have h1 : handle_tool_outputs (pre ++ ⟨cid, "save_value", ArgParse.ok arg⟩ :: post)
      = (none, some clarifyMsg) := by
    rw [handle_tool_outputs_skip pre _ hpre]
    exact handle_tool_outputs_invalid cid arg post harg
  simp [process_tool_call, h1]

/-- Witness for the amended C3: the concrete run run_3w with missing
value resolves to the clarification, failure flag, unchanged database
and empty submission list. -/
theorem C3_amended_witness :
    (∀ tc ∈ ([] : List ToolCall), tc.name ≠ "save_value") ∧
    ((PyVal.vNone = PyVal.vNone) ∨ ∃ s, PyVal.vNone = PyVal.vStr s ∧ pyStrip s = "") ∧
    process_tool_call true ⟨"run_3w", RunStatus.requires_action,
        [] ++ ⟨"call_3w", "save_value", ArgParse.ok PyVal.vNone⟩ :: []⟩ [⟨4, "свобода"⟩] 4
      = CallOutcome.ret clarifyMsg false [⟨4, "свобода"⟩] [] := by
  refine ⟨by decide, Or.inl rfl, ?_⟩
  exact C3_amended_invalid_value_clarifies_without_submission [] [] "call_3w" "run_3w"
    PyVal.vNone true [⟨4, "свобода"⟩] 4 (by decide) (Or.inl rfl)

/-- C4 counterexample: a general-chat voice message handled by
voice_handler in the Idle state, whose run issues a save_value tool
call with the valid value "семья", inserts a UserValue row — a
general-chat message does trigger an insert. -/
theorem C4_counterexample_voice_chat_inserts :
    (voice_handler ⟨"run_4", RunStatus.requires_action,
        [⟨"call_4", "save_value", ArgParse.ok (PyVal.vStr "семья")⟩]⟩
        true [] [] 9 "семья" SessionState.Idle).db = [⟨9, "семья"⟩] ∧
    ([⟨9, "семья"⟩] : DB) ≠ [] := by
  decide

/-- C4 (amended): a general-chat text message never inserts a
UserValue record: text_handler leaves the database (and the session
state) unchanged for every message text, database, user and state; a
general-chat voice message, by contrast, can insert one when its run
issues a save_value tool call (see the counterexample). -/
theorem C4_amended_text_chat_never_inserts
    (text : String) (db : DB) (uid : Int) (st : SessionState) :
    (text_handler text db uid st).db = db ∧ (text_handler text db uid st).state = st := by
  simp only [text_handler]
  split_ifs <;> exact ⟨rfl, rfl⟩

/-- C5 counterexample: after the /start command is handled for a
session in AwaitingValue with stored thread handle "thread_1", the
session is still in AwaitingValue with the same handle — the state is
not cleared to Idle. -/
theorem C5_counterexample_start_does_not_clear_state :
    (start_handler [] (SessionState.AwaitingValue "thread_1")).state
      = SessionState.AwaitingValue "thread_1" ∧
    SessionState.AwaitingValue "thread_1" ≠ SessionState.Idle := by
  decide

/-- C5 (amended): the explicit /start command clears nothing: the
handler answers the greeting and leaves the session state, the stored
thread handle and the database unchanged, in every state — in
particular also while the session is in AwaitingValue. -/
theorem C5_amended_start_preserves_state (db : DB) (st : SessionState) :
    (start_handler db st).state = st ∧ (start_handler db st).db = db :=
  ⟨rfl, rfl⟩

/-- C6 counterexample: for the same session, a save_value tool call
with malformed JSON arguments and one with a missing value field
produce different replies to the user ("Ошибка обработки. Попробуйте
снова." versus "Ценность не определена. Пожалуйста, уточните."), so
the two cases are not handled identically. -/
theorem C6_counterexample_malformed_and_missing_replies_differ :
    (process_value ⟨"run_6", RunStatus.requires_action,
        [⟨"call_6", "save_value", ArgParse.malformed⟩]⟩
        true [] [] 3 (SessionState.AwaitingValue "t6")).replies
      ≠ (process_value ⟨"run_6", RunStatus.requires_action,
        [⟨"call_6", "save_value", ArgParse.ok PyVal.vNone⟩]⟩
        true [] [] 3 (SessionState.AwaitingValue "t6")).replies := by
  decide

/-- C6 (amended): a save_value tool call with malformed JSON arguments
is handled like one with a missing value field in that zero records
are persisted and the session state is unchanged (it stays
AwaitingValue), but the clarification message differs: malformed JSON
yields "Ошибка обработки. Попробуйте снова." while a missing value
yields "Ценность не определена. Пожалуйста, уточните.". -/
theorem C6_amended_malformed_like_missing_except_message
    (cid rid tid : String) (post : List ToolCall) (msgs : List ThreadMsg)
    (commitOk : Bool) (db : DB) (uid : Int) :
    process_value ⟨rid, RunStatus.requires_action,
        ⟨cid, "save_value", ArgParse.malformed⟩ :: post⟩
        commitOk msgs db uid (SessionState.AwaitingValue tid)
      = ⟨[processErrMsg], db, SessionState.AwaitingValue tid, []⟩ ∧
    process_value ⟨rid, RunStatus.requires_action,
        ⟨cid, "save_value", ArgParse.ok PyVal.vNone⟩ :: post⟩
        commitOk msgs db uid (SessionState.AwaitingValue tid)
      = ⟨[clarifyMsg], db, SessionState.AwaitingValue tid, []⟩ ∧
    processErrMsg ≠ clarifyMsg := by
  refine ⟨?_, ?_, by decide⟩
  · have h1 : handle_tool_outputs (⟨cid, "save_value", ArgParse.malformed⟩ :: post)
        = (none, some processErrMsg) := by
      simp [handle_tool_outputs]
    have h2 : process_tool_call commitOk
        (⟨rid, RunStatus.requires_action,
          ⟨cid, "save_value", ArgParse.malformed⟩ :: post⟩ : RemoteRun) db uid
        = CallOutcome.ret processErrMsg false db [] := by
      simp [process_tool_call, h1]
    simp [process_value, h2]
  · have h1 : handle_tool_outputs (⟨cid, "save_value", ArgParse.ok PyVal.vNone⟩ :: post)
        = (none, some clarifyMsg) := by
      simp [handle_tool_outputs]
    have h2 : process_tool_call commitOk
        (⟨rid, RunStatus.requires_action,
          ⟨cid, "save_value", ArgParse.ok PyVal.vNone⟩ :: post⟩ : RemoteRun) db uid
        = CallOutcome.ret clarifyMsg false db [] := by
      simp [process_tool_call, h1]
    simp [process_value, h2]

/-- C7: at the failing input (user 1, value "семья", commit succeeds),
database.py's save_value_to_db commits the row but returns Python None
— its body has no return statement — and not a (success, message)
pair; the older main.py revision's save_value does return the pair at
the same input, which is also what the caller process_tool_call
unpacks, so the None return is a slip. -/
theorem C7_insert_returns_none_not_pair :
    save_value_to_db true [] 1 "семья" = DbOutcome.ret [⟨1, "семья"⟩] PyRet.pyNone ∧
    Main.save_value true true [] 1 "семья"
      = ([⟨1, "семья"⟩], (true, "Ценность успешно сохранена!")) := by
  decide

/-- C8: when the commit raises, save_value_to_db rolls back and
re-raises: the outcome is an exception and the store is exactly the
database it started with — no partial row is persisted. -/
theorem C8_rollback_leaves_store_unchanged (db : DB) (uid : Int) (v : String) :
    save_value_to_db false db uid v = DbOutcome.exn db :=
  rfl

/-- C9: at the failing input — the requires-action run run_9 whose
tool-call list is [call_A (file_search), call_B (save_value "семья")]
with a succeeding commit — process_tool_call persists the value and
then raises (unpacking the None returned by save_value_to_db) before
reaching submit_tool_output, so no tool output at all is submitted: in
particular none carrying call_A's id, contrary to the claim. -/
theorem C9_no_submission_reaches_remote_run :
    process_tool_call true ⟨"run_9", RunStatus.requires_action,
        [⟨"call_A", "file_search", ArgParse.ok PyVal.vNone⟩,
         ⟨"call_B", "save_value", ArgParse.ok (PyVal.vStr "семья")⟩]⟩ [] 5
      = CallOutcome.exn [⟨5, "семья"⟩] [] := by
  decide

/-- C10: handle_tool_outputs never returns both an extracted value and
an error message, and it returns (none, none) exactly when no tool
call in the list is named save_value. -/
theorem C10_extraction_exclusive_and_none_iff_no_save_value (calls : List ToolCall) :
    ¬(((handle_tool_outputs calls).1.isSome = true) ∧
        ((handle_tool_outputs calls).2.isSome = true)) ∧
    (handle_tool_outputs calls = (none, none) ↔ ∀ tc ∈ calls, tc.name ≠ "save_value") := by
  induction calls with
  | nil => simp [handle_tool_outputs]
  | cons tc rest ih =>
    by_cases h : tc.name = "save_value"
    · rcases harg : tc.arguments with _ | _ | v
      · simp [handle_tool_outputs, h, harg, List.forall_mem_cons]
      · simp [handle_tool_outputs, h, harg, List.forall_mem_cons]
      · rcases v with _ | s | _
        · simp [handle_tool_outputs, h, harg, List.forall_mem_cons]
        · by_cases hs : pyStrip s = "" <;>
            simp [handle_tool_outputs, h, harg, hs, List.forall_mem_cons]
        · simp [handle_tool_outputs, h, harg, List.forall_mem_cons]
    · simp [handle_tool_outputs, h, List.forall_mem_cons, ih.1, ih.2]
